import Mathlib

/-!
# Floating IPs client of package godo (`floating_ips.go`)

A shallow embedding of `vendor/github.com/digitalocean/godo/floating_ips.go`:
the data types of the file, `FloatingIP.URN`, and the four operations
`List`, `Get`, `Create` and `Delete` of `FloatingIPsServiceOp`.

The file calls three collaborators it does not define: the package function
`addOptions` and the methods `NewRequest` and `Do` of `*Client`.  They are
fields of `Env`; every operation returns, next to its Go results, the trace of
the calls it made to them.  The `context.Context` argument is passed through
untouched by every operation and is left out.

Go pointers are `Option`s (`none` is `nil`), a slice is an `Option` of a list
(`none` is the nil slice), `error` is an `Option` of an error value.
-/

namespace Godo

/-! ## Declarations of package godo that `floating_ips.go` only names -/

/-- Types that `floating_ips.go` uses and that are declared in other files of
the package (or in the Go standard library); they are parameters. -/
structure Decls where
  /-- Type `Region`. -/
  Region : Type
  /-- Type `Droplet`. -/
  Droplet : Type
  /-- Type `Links`. -/
  Links : Type
  /-- Type `Meta`. -/
  Meta : Type
  /-- Type `http.Request`. -/
  Request : Type
  /-- The values of the interface `error`. -/
  Error : Type

variable {G : Decls}

/-- Modelled from the spec: the type `Response`, declared in another file of
the package.  It is the "response metadata" of the spec: the HTTP status and
the pagination links and metadata. -/
structure Response (G : Decls) where
  /-- HTTP status of the response. -/
  StatusCode : Int
  /-- Pagination links, `*Links`. -/
  Links : Option G.Links
  /-- Pagination metadata, `*Meta`. -/
  Meta : Option G.Meta

/-- Modelled from the spec: the type `ListOptions`, declared in another file of
the package: the pagination options "page number, page size".  A field left at
zero is an option that was not given. -/
structure ListOptions where
  /-- Page number. -/
  Page : Int
  /-- Page size. -/
  PerPage : Int
deriving DecidableEq, Repr

/-! ## Data model of `floating_ips.go` -/

/-- Constant `floatingBasePath`. -/
def floatingBasePath : String := "v2/floating_ips"

/-- Constant `http.MethodGet`. -/
def MethodGet : String := "GET"

/-- Constant `http.MethodPost`. -/
def MethodPost : String := "POST"

/-- Constant `http.MethodDelete`. -/
def MethodDelete : String := "DELETE"

/-- A Go slice: `none` is the nil slice. -/
abbrev Slice (α : Type) : Type := Option (List α)

/-- Type `FloatingIP`. -/
structure FloatingIP (G : Decls) where
  /-- Field `Region *Region`. -/
  Region : Option G.Region
  /-- Field `Droplet *Droplet`. -/
  Droplet : Option G.Droplet
  /-- Field `IP string`. -/
  IP : String
  /-- Field `ProjectID string`. -/
  ProjectID : String
  /-- Field `Locked bool`. -/
  Locked : Bool

/-- Type `floatingIPsRoot`. -/
structure floatingIPsRoot (G : Decls) where
  /-- Field `FloatingIPs []FloatingIP`. -/
  FloatingIPs : Slice (FloatingIP G)
  /-- Field `Links *Links`. -/
  Links : Option G.Links
  /-- Field `Meta *Meta`. -/
  Meta : Option G.Meta

/-- Type `floatingIPRoot`. -/
structure floatingIPRoot (G : Decls) where
  /-- Field `FloatingIP *FloatingIP`. -/
  FloatingIP : Option (FloatingIP G)
  /-- Field `Links *Links`. -/
  Links : Option G.Links

/-- Type `FloatingIPCreateRequest`. -/
structure FloatingIPCreateRequest where
  /-- Field `Region string`, tag `json:"region,omitempty"`. -/
  Region : String
  /-- Field `DropletID int`, tag `json:"droplet_id,omitempty"`. -/
  DropletID : Int
  /-- Field `ProjectID string`, tag `json:"project_id,omitempty"`. -/
  ProjectID : String
deriving DecidableEq, Repr

/-- The value of `new(floatingIPsRoot)`. -/
def floatingIPsRoot.new : floatingIPsRoot G := ⟨none, none, none⟩

/-- The value of `new(floatingIPRoot)`. -/
def floatingIPRoot.new : floatingIPRoot G := ⟨none, none⟩

/-! ## The collaborators -/

/-- The `body interface{}` argument of `NewRequest`: the untyped `nil`, or a
`*FloatingIPCreateRequest` (which may itself be a nil pointer). -/
inductive Body where
  | nil
  | createRequest (p : Option FloatingIPCreateRequest)
deriving DecidableEq, Repr

/-- The dynamic type of the argument `v interface{}` of `Do`. -/
inductive VKind where
  | nil
  | floatingIPsRoot
  | floatingIPRoot
deriving DecidableEq, Repr

/-- What `v` points to, for each dynamic type. -/
def VKind.Value (G : Decls) : VKind → Type
  | .nil => Unit
  | .floatingIPsRoot => Godo.floatingIPsRoot G
  | .floatingIPRoot => Godo.floatingIPRoot G

/-- The functions `floating_ips.go` calls and does not define. -/
structure Env (G : Decls) where
  /-- Function `addOptions(s string, opt interface{}) (string, error)`. -/
  addOptions : String → Option ListOptions → String × Option G.Error
  /-- Method `(*Client).NewRequest(ctx, method, urlStr, body)`. -/
  NewRequest : String → String → Body → Option G.Request × Option G.Error
  /-- Method `(*Client).Do(ctx, req, v)`: the response, the error, and what `v`
  points to after the call. -/
  Do : (k : VKind) → Option G.Request → k.Value G →
    Option (Response G) × Option G.Error × k.Value G

/-- A call made to a collaborator. -/
inductive Event (G : Decls) where
  | addOptions (s : String) (opt : Option ListOptions)
  | NewRequest (method : String) (urlStr : String) (body : Body)
  | Do (k : VKind) (req : Option G.Request)

/-- The calls an operation made, in order. -/
abbrev Trace (G : Decls) : Type := List (Event G)

/-- Is the event a call of `Do`? -/
def Event.isDo : Event G → Bool
  | .Do _ _ => true
  | _ => false

/-- Number of calls of `Do` in a trace. -/
def doCalls (t : Trace G) : Nat := t.countP Event.isDo

/-- How a Go function ends: it returns its results, or it panics. -/
inductive Exec (α : Type) where
  | returned (results : α)
  | panicked

/-! ## `fmt.Sprintf` -/

/-- What `fmt.Sprintf` appends for operands the format did not use:
`%!(EXTRA string=a, string=b)`. -/
def sprintfExtra : List String → List Char
  | [] => []
  | a :: more =>
    "%!(EXTRA ".data ++ (", ".intercalate ((a :: more).map fun x => "string=" ++ x)).data ++ [')']

/-- Expansion of a format over string operands, for the fragment of
`fmt.Sprintf` that the file uses: `%s` prints the next operand verbatim (and
`%!s(MISSING)` when there is none), `%%` prints a percent sign, unused operands
are reported at the end.  Verbs other than `s` are outside the fragment: the
percent sign in front of them is copied like any other character. -/
def sprintfAux : List Char → List String → List Char
  | [], args => sprintfExtra args
  | [c], args => (if c = '%' then "%!(NOVERB)".data else [c]) ++ sprintfExtra args
  | c :: d :: rest, args =>
    if c = '%' then
      if d = 's' then
        match args with
        | a :: more => a.data ++ sprintfAux rest more
        | [] => "%!s(MISSING)".data ++ sprintfAux rest []
      else if d = '%' then '%' :: sprintfAux rest args
      else c :: sprintfAux (d :: rest) args
    else c :: sprintfAux (d :: rest) args

/-- `fmt.Sprintf(format, a...)` over string operands. -/
def Sprintf (format : String) (a : List String) : String :=
  ⟨sprintfAux format.data a⟩

/-! ## `FloatingIP.URN` -/

/-- Modelled from the spec: the function `ToURN`, declared in another file of
the package.  The spec gives the URN the form `do:FloatingIP:{ip}`: the scheme
`do`, the resource type, the identifier, separated by colons. -/
def ToURN (resourceType : String) (id : String) : String :=
  "do:" ++ resourceType ++ ":" ++ id

/-- Method `FloatingIP.URN`. -/
def FloatingIP.URN (f : FloatingIP G) : String :=
  ToURN "FloatingIP" f.IP

/-! ## The operations -/

/-- The assignment `resp.Links = l` through the pointer `resp`. -/
def setLinks (resp : Option (Response G)) (l : G.Links) : Exec (Option (Response G)) :=
  match resp with
  | some r => .returned (some { r with Links := some l })
  | none => .panicked

/-- The assignment `resp.Meta = m` through the pointer `resp`. -/
def setMeta (resp : Option (Response G)) (m : G.Meta) : Exec (Option (Response G)) :=
  match resp with
  | some r => .returned (some { r with Meta := some m })
  | none => .panicked

/-- Method `FloatingIPsServiceOp.List`. -/
def FloatingIPsServiceOp.List (c : Env G) (opt : Option ListOptions) :
    Exec (Slice (FloatingIP G) × Option (Response G) × Option G.Error) × Trace G :=
  let t1 : Trace G := [.addOptions floatingBasePath opt]
  match c.addOptions floatingBasePath opt with
  | (_, some err) => (.returned (none, none, some err), t1)
  | (path, none) =>
    let t2 : Trace G := t1 ++ [.NewRequest MethodGet path .nil]
    match c.NewRequest MethodGet path .nil with
    | (_, some err) => (.returned (none, none, some err), t2)
    | (req, none) =>
      let t3 : Trace G := t2 ++ [.Do .floatingIPsRoot req]
      match c.Do .floatingIPsRoot req floatingIPsRoot.new with
      | (resp, some err, _) => (.returned (none, resp, some err), t3)
      | (resp, none, root) =>
        let afterLinks : Exec (Option (Response G)) :=
          match root.Links with
          | some l => setLinks resp l
          | none => .returned resp
        match afterLinks with
        | .panicked => (.panicked, t3)
        | .returned resp1 =>
          let afterMeta : Exec (Option (Response G)) :=
            match root.Meta with
            | some m => setMeta resp1 m
            | none => .returned resp1
          match afterMeta with
          | .panicked => (.panicked, t3)
          | .returned resp2 => (.returned (root.FloatingIPs, resp2, none), t3)

/-- Method `FloatingIPsServiceOp.Get`. -/
def FloatingIPsServiceOp.Get (c : Env G) (ip : String) :
    Exec (Option (FloatingIP G) × Option (Response G) × Option G.Error) × Trace G :=
  let path := Sprintf "%s/%s" [floatingBasePath, ip]
  let t1 : Trace G := [.NewRequest MethodGet path .nil]
  match c.NewRequest MethodGet path .nil with
  | (_, some err) => (.returned (none, none, some err), t1)
  | (req, none) =>
    let t2 : Trace G := t1 ++ [.Do .floatingIPRoot req]
    match c.Do .floatingIPRoot req floatingIPRoot.new with
    | (resp, some err, _) => (.returned (none, resp, some err), t2)
    | (resp, none, root) => (.returned (root.FloatingIP, resp, none), t2)

/-- Method `FloatingIPsServiceOp.Create`. -/
def FloatingIPsServiceOp.Create (c : Env G) (createRequest : Option FloatingIPCreateRequest) :
    Exec (Option (FloatingIP G) × Option (Response G) × Option G.Error) × Trace G :=
  let path := floatingBasePath
  let t1 : Trace G := [.NewRequest MethodPost path (.createRequest createRequest)]
  match c.NewRequest MethodPost path (.createRequest createRequest) with
  | (_, some err) => (.returned (none, none, some err), t1)
  | (req, none) =>
    let t2 : Trace G := t1 ++ [.Do .floatingIPRoot req]
    match c.Do .floatingIPRoot req floatingIPRoot.new with
    | (resp, some err, _) => (.returned (none, resp, some err), t2)
    | (resp, none, root) =>
      let afterLinks : Exec (Option (Response G)) :=
        match root.Links with
        | some l => setLinks resp l
        | none => .returned resp
      match afterLinks with
      | .panicked => (.panicked, t2)
      | .returned resp1 => (.returned (root.FloatingIP, resp1, none), t2)

/-- Method `FloatingIPsServiceOp.Delete`. -/
def FloatingIPsServiceOp.Delete (c : Env G) (ip : String) :
    Exec (Option (Response G) × Option G.Error) × Trace G :=
  let path := Sprintf "%s/%s" [floatingBasePath, ip]
  let t1 : Trace G := [.NewRequest MethodDelete path .nil]
  match c.NewRequest MethodDelete path .nil with
  | (_, some err) => (.returned (none, some err), t1)
  | (req, none) =>
    let t2 : Trace G := t1 ++ [.Do .nil req]
    match c.Do .nil req () with
    | (resp, err, _) => (.returned (resp, err), t2)

/-- The arguments of the calls of `NewRequest` in a trace, in order. -/
def builderCalls : Trace G → List (String × String × Body)
  | [] => []
  | .NewRequest method urlStr body :: t => (method, urlStr, body) :: builderCalls t
  | _ :: t => builderCalls t

/-! ## URL path encoding -/

/-- The UTF-8 bytes of a code point. -/
def utf8Bytes (n : Nat) : List Nat :=
  if n < 0x80 then [n]
  else if n < 0x800 then [0xC0 + n / 64, 0x80 + n % 64]
  else if n < 0x10000 then [0xE0 + n / 4096, 0x80 + n / 64 % 64, 0x80 + n % 64]
  else [0xF0 + n / 262144, 0x80 + n / 4096 % 64, 0x80 + n / 64 % 64, 0x80 + n % 64]

/-- Modelled from the spec: which bytes "URL path encoding" of a path segment
escapes, as `net/url` decides it for `PathEscape`: letters, digits and
`- _ . ~ $ & + : = @` stay, every other byte is escaped. -/
def shouldEscape (c : Nat) : Bool :=
  if ('a'.toNat ≤ c ∧ c ≤ 'z'.toNat) ∨ ('A'.toNat ≤ c ∧ c ≤ 'Z'.toNat) ∨
      ('0'.toNat ≤ c ∧ c ≤ '9'.toNat) then false
  else if c = '-'.toNat ∨ c = '_'.toNat ∨ c = '.'.toNat ∨ c = '~'.toNat then false
  else if c = '$'.toNat ∨ c = '&'.toNat ∨ c = '+'.toNat ∨ c = ','.toNat ∨ c = '/'.toNat ∨
      c = ':'.toNat ∨ c = ';'.toNat ∨ c = '='.toNat ∨ c = '?'.toNat ∨ c = '@'.toNat then
    decide (c = '/'.toNat ∨ c = ';'.toNat ∨ c = ','.toNat ∨ c = '?'.toNat)
  else true

/-- Upper-case hexadecimal digit. -/
def upperhex (n : Nat) : Char := "0123456789ABCDEF".data.getD n '0'

/-- The encoding of one byte: itself, or `%XX`. -/
def escapeByte (b : Nat) : List Char :=
  if shouldEscape b then ['%', upperhex (b / 16), upperhex (b % 16)] else [Char.ofNat b]

/-- Modelled from the spec: "URL-path-encode" a segment once, as
`url.PathEscape` does. -/
def pathEscape (s : String) : String :=
  ⟨s.data.flatMap fun ch => (utf8Bytes ch.toNat).flatMap escapeByte⟩

/-- Does path encoding change the string: is there a byte it escapes? -/
def needsEscape (s : String) : Bool :=
  s.data.any fun ch => (utf8Bytes ch.toNat).any shouldEscape

/-! ## JSON encoding of `FloatingIPCreateRequest` -/

/-- The Go values of the fields of `FloatingIPCreateRequest`. -/
inductive GoValue where
  | string (s : String)
  | int (n : Int)
deriving DecidableEq, Repr

/-- A struct field as `encoding/json` sees it: the key of its tag, whether the
tag has `omitempty`, the value. -/
structure StructField where
  /-- Key given by the tag. -/
  name : String
  /-- Option `omitempty` of the tag. -/
  omitEmpty : Bool
  /-- Value of the field. -/
  value : GoValue
deriving DecidableEq, Repr

/-- Function `isEmptyValue` of `encoding/json`: the empty string, the integer 0. -/
def isEmptyValue : GoValue → Bool
  | .string s => s.length == 0
  | .int n => n == 0

/-- The fields of a `FloatingIPCreateRequest` with their tags, in declaration
order. -/
def FloatingIPCreateRequest.fields (r : FloatingIPCreateRequest) : List StructField :=
  [⟨"region", true, .string r.Region⟩,
   ⟨"droplet_id", true, .int r.DropletID⟩,
   ⟨"project_id", true, .string r.ProjectID⟩]

/-- The members of the JSON object `encoding/json` writes for a struct: each
field in order, except an empty one tagged `omitempty`. -/
def marshalFields (fs : List StructField) : List (String × GoValue) :=
  (fs.filter fun f => !(f.omitEmpty && isEmptyValue f.value)).map fun f => (f.name, f.value)

/-- The members of the JSON object of a `FloatingIPCreateRequest`. -/
def FloatingIPCreateRequest.members (r : FloatingIPCreateRequest) : List (String × GoValue) :=
  marshalFields r.fields

/-- The escape `\u00XX` or `\uXXXX` of a code point below 0x10000. -/
def unicodeEscape (n : Nat) : List Char :=
  [Char.ofNat 92, 'u'] ++ ([n / 4096, n / 256 % 16, n / 16 % 16, n % 16].map fun d =>
    "0123456789abcdef".data.getD d '0')

/-- One character of a JSON string as `encoding/json` writes it (HTML escaping
on): quote and backslash get a backslash, newline, carriage return and tab
their short escapes, other control characters, `<`, `>`, `&`, U+2028 and
U+2029 a unicode escape. -/
def encodeChar (ch : Char) : List Char :=
  if ch = Char.ofNat 34 ∨ ch = Char.ofNat 92 then [Char.ofNat 92, ch]
  else if ch = Char.ofNat 10 then [Char.ofNat 92, 'n']
  else if ch = Char.ofNat 13 then [Char.ofNat 92, 'r']
  else if ch = Char.ofNat 9 then [Char.ofNat 92, 't']
  else if ch.toNat < 32 ∨ ch = '<' ∨ ch = '>' ∨ ch = '&' ∨ ch.toNat = 0x2028 ∨ ch.toNat = 0x2029 then
    unicodeEscape ch.toNat
  else [ch]

/-- A JSON string literal. -/
def encodeString (s : String) : String :=
  ⟨[Char.ofNat 34] ++ s.data.flatMap encodeChar ++ [Char.ofNat 34]⟩

/-- A JSON value. -/
def encodeValue : GoValue → String
  | .string s => encodeString s
  | .int n => toString n

/-- A JSON object. -/
def encodeObject (ms : List (String × GoValue)) : String :=
  "\x7b" ++ ",".intercalate (ms.map fun m => encodeString m.1 ++ ":" ++ encodeValue m.2) ++ "\x7d"

/-- The JSON text of a `FloatingIPCreateRequest`. -/
def FloatingIPCreateRequest.Marshal (r : FloatingIPCreateRequest) : String :=
  encodeObject r.members

/-! ## The option encoder -/

/-- Modelled from the spec: the query parameters of pagination options, "page"
and "per_page", one for each option that was given. -/
def ListOptions.params (o : ListOptions) : List (String × String) :=
  (if o.Page = 0 then [] else [("page", toString o.Page)]) ++
  (if o.PerPage = 0 then [] else [("per_page", toString o.PerPage)])

/-- A query string `k1=v1&k2=v2`. -/
def queryString (ps : List (String × String)) : String :=
  "&".intercalate (ps.map fun p => p.1 ++ "=" ++ p.2)

/-- Modelled from the spec: the function `addOptions`, declared in another file
of the package.  It appends the pagination query parameters to the path: with
no options, or none given, the path is returned as it is. -/
def addOptions (s : String) (opt : Option ListOptions) : String × Option G.Error :=
  match opt with
  | none => (s, none)
  | some o =>
    if o.params = [] then (s, none) else (s ++ "?" ++ queryString o.params, none)

/-- Modelled from the spec: the path of a request as it is issued.  The spec
gives the HTTP surface "relative to an API base URL", with the paths
`/{collection}`: the request builder, declared in another file of the package,
resolves the relative path it is handed against the base URL, whose path is
`/`. -/
def requestPath (urlStr : String) : String := "/" ++ urlStr

/-- The requests an operation issues: for each call of `NewRequest`, the
method, the path of the request and the body. -/
def issuedRequests (t : Trace G) : List (String × String × Body) :=
  (builderCalls t).map fun r => (r.1, requestPath r.2.1, r.2.2)

/-! ## Concrete environments -/

/-- Concrete types for the declarations. -/
abbrev exampleDecls : Decls := ⟨String, Nat, String, Nat, String, String⟩

/-- A floating IP. -/
def exampleIP : FloatingIP exampleDecls := ⟨some "nyc3", none, "203.0.113.5", "abc", false⟩

/-- A request builder that accepts everything. -/
def buildAll (method urlStr : String) (_ : Body) : Option String × Option String :=
  (some (method ++ " " ++ urlStr), none)

/-- A transport that answers 200 with one floating IP, links and metadata. -/
def okEnv : Env exampleDecls where
  addOptions := addOptions
  NewRequest := buildAll
  Do := fun k _ v =>
    match k, v with
    | .nil, _ => (some ⟨204, none, none⟩, none, ())
    | .floatingIPsRoot, _ => (some ⟨200, some "stale", some 3⟩, none, ⟨some [exampleIP], some "next", none⟩)
    | .floatingIPRoot, _ => (some ⟨200, none, some 3⟩, none, ⟨some exampleIP, some "actions"⟩)

/-- A transport that decodes a floating IP into the envelope and then fails
with status 404. -/
def notFoundEnv : Env exampleDecls where
  addOptions := addOptions
  NewRequest := buildAll
  Do := fun k _ v =>
    match k, v with
    | .nil, _ => (some ⟨404, none, none⟩, some "404 not found", ())
    | .floatingIPsRoot, _ => (some ⟨404, none, none⟩, some "404 not found", ⟨some [exampleIP], none, none⟩)
    | .floatingIPRoot, _ => (some ⟨404, none, none⟩, some "404 not found", ⟨some exampleIP, none⟩)

/-- A request builder that rejects everything. -/
def rejectEnv : Env exampleDecls where
  addOptions := addOptions
  NewRequest := fun _ _ _ => (none, some "bad request")
  Do := okEnv.Do

/-- An option encoder that rejects everything. -/
def badOptionsEnv : Env exampleDecls where
  addOptions := fun s _ => (s, some "bad options")
  NewRequest := buildAll
  Do := okEnv.Do

/-! ## Lemmas -/

theorem Sprintf_s_slash_s (a b : String) : Sprintf "%s/%s" [a, b] = a ++ "/" ++ b := by
  apply String.ext
  simp [Sprintf, sprintfAux, sprintfExtra]

theorem builderCalls_Get (c : Env G) (ip : String) :
    builderCalls (FloatingIPsServiceOp.Get c ip).2 =
      [(MethodGet, floatingBasePath ++ "/" ++ ip, Body.nil)] := by
  unfold FloatingIPsServiceOp.Get
  simp only [Sprintf_s_slash_s]
  split
  · simp [builderCalls]
  · split <;> simp [builderCalls]

theorem builderCalls_Delete (c : Env G) (ip : String) :
    builderCalls (FloatingIPsServiceOp.Delete c ip).2 =
      [(MethodDelete, floatingBasePath ++ "/" ++ ip, Body.nil)] := by
  unfold FloatingIPsServiceOp.Delete
  simp only [Sprintf_s_slash_s]
  split
  · simp [builderCalls]
  · simp [builderCalls]

/-! ## Request construction of `Get` and `Delete` -/

/-- C1: for every string `ip`, `Get` calls the request builder once, with the
method GET, a nil body and the path `v2/floating_ips`, then `/`, then `ip`
verbatim; `Delete` calls it once with the method DELETE, a nil body and the
same path.  For `ip = "203.0.113.5"` the path is `v2/floating_ips/203.0.113.5`. -/
theorem C1_get_delete_request (c : Env G) (ip : String) :
    builderCalls (FloatingIPsServiceOp.Get c ip).2
        = [("GET", "v2/floating_ips" ++ "/" ++ ip, Body.nil)] ∧
    builderCalls (FloatingIPsServiceOp.Delete c ip).2
        = [("DELETE", "v2/floating_ips" ++ "/" ++ ip, Body.nil)] ∧
    builderCalls (FloatingIPsServiceOp.Get c "203.0.113.5").2
        = [("GET", "v2/floating_ips/203.0.113.5", Body.nil)] ∧
    builderCalls (FloatingIPsServiceOp.Delete c "203.0.113.5").2
        = [("DELETE", "v2/floating_ips/203.0.113.5", Body.nil)] := by
  refine ⟨builderCalls_Get c ip, builderCalls_Delete c ip, ?_, ?_⟩
  · rw [builderCalls_Get]; decide
  · rw [builderCalls_Delete]; decide

/-! ## URN -/

/-- C3: for every floating IP `f`, in particular one whose `IP` is not empty,
`f.URN()` is the string `do:FloatingIP:` followed by `f.IP`, and a floating IP
with the same `IP` has the same URN, whatever its other fields.  For the
address 203.0.113.5 the URN is `do:FloatingIP:203.0.113.5`. -/
theorem C3_urn (f : FloatingIP G) :
    f.URN = "do:FloatingIP:" ++ f.IP ∧
    (∀ g : FloatingIP G, g.IP = f.IP → g.URN = f.URN) ∧
    exampleIP.URN = "do:FloatingIP:203.0.113.5" := by
  refine ⟨?_, ?_, by decide⟩
  · simp only [FloatingIP.URN, ToURN]
    apply String.ext
    simp [String.data_append]
  · intro g hg
    simp only [FloatingIP.URN, hg]

/-! ## Path encoding of the address segment -/

theorem shouldEscape_of_ge (b : Nat) (h : 127 ≤ b) : shouldEscape b = true := by
  have e : ('a'.toNat = 97 ∧ 'z'.toNat = 122 ∧ 'A'.toNat = 65 ∧ 'Z'.toNat = 90 ∧
      '0'.toNat = 48 ∧ '9'.toNat = 57) ∧ ('-'.toNat = 45 ∧ '_'.toNat = 95 ∧ '.'.toNat = 46 ∧
      '~'.toNat = 126) ∧ ('$'.toNat = 36 ∧ '&'.toNat = 38 ∧ '+'.toNat = 43 ∧ ','.toNat = 44 ∧
      '/'.toNat = 47 ∧ ':'.toNat = 58 ∧ ';'.toNat = 59 ∧ '='.toNat = 61 ∧ '?'.toNat = 63 ∧
      '@'.toNat = 64) := by decide
  obtain ⟨⟨e1, e2, e3, e4, e5, e6⟩, ⟨e7, e8, e9, e10⟩, e11, e12, e13, e14, e15, e16, e17, e18,
    e19, e20⟩ := e
  unfold shouldEscape
  rw [e1, e2, e3, e4, e5, e6, e7, e8, e9, e10, e11, e12, e13, e14, e15, e16, e17, e18, e19, e20]
  rw [if_neg (by omega), if_neg (by omega), if_neg (by omega)]

theorem escape_char_eq (ch : Char) (h : (utf8Bytes ch.toNat).any shouldEscape = false) :
    (utf8Bytes ch.toNat).flatMap escapeByte = [ch] := by
  unfold utf8Bytes at h ⊢
  by_cases h1 : ch.toNat < 0x80
  · rw [if_pos h1] at h ⊢
    simp only [List.any_cons, List.any_nil, Bool.or_false] at h
    simp [escapeByte, h]
  · exfalso
    rw [if_neg h1] at h
    split at h
    · simp only [List.any_cons, Bool.or_eq_false_iff] at h
      rw [shouldEscape_of_ge _ (by omega)] at h
      exact absurd h.1 (by simp)
    · split at h
      · simp only [List.any_cons, Bool.or_eq_false_iff] at h
        rw [shouldEscape_of_ge _ (by omega)] at h
        exact absurd h.1 (by simp)
      · simp only [List.any_cons, Bool.or_eq_false_iff] at h
        rw [shouldEscape_of_ge _ (by omega)] at h
        exact absurd h.1 (by simp)

theorem escape_chars_eq (l : List Char)
    (h : (l.any fun ch => (utf8Bytes ch.toNat).any shouldEscape) = false) :
    (l.flatMap fun ch => (utf8Bytes ch.toNat).flatMap escapeByte) = l := by
  induction l with
  | nil => rfl
  | cons ch t ih =>
    simp only [List.any_cons, Bool.or_eq_false_iff] at h
    rw [List.flatMap_cons, escape_char_eq ch h.1, ih h.2]
    rfl

theorem pathEscape_eq_self (s : String) (h : needsEscape s = false) : pathEscape s = s := by
  apply String.ext
  exact escape_chars_eq s.data h

/-- C2, as the code has it: `Get` and `Delete` put the address segment into
the path verbatim, escaping nothing.  So for every `ip` in which URL path
encoding has nothing to escape, the segment of the path is the URL path
encoding of `ip`, applied once. -/
theorem C2_segment_verbatim (c : Env G) (ip : String) (h : needsEscape ip = false) :
    builderCalls (FloatingIPsServiceOp.Get c ip).2
        = [(MethodGet, floatingBasePath ++ "/" ++ pathEscape ip, Body.nil)] ∧
    builderCalls (FloatingIPsServiceOp.Delete c ip).2
        = [(MethodDelete, floatingBasePath ++ "/" ++ pathEscape ip, Body.nil)] ∧
    (∀ s : String,
      builderCalls (FloatingIPsServiceOp.Get c s).2
        = [(MethodGet, floatingBasePath ++ "/" ++ s, Body.nil)] ∧
      builderCalls (FloatingIPsServiceOp.Delete c s).2
        = [(MethodDelete, floatingBasePath ++ "/" ++ s, Body.nil)]) := by
  rw [pathEscape_eq_self ip h]
  exact ⟨builderCalls_Get c ip, builderCalls_Delete c ip,
    fun s => ⟨builderCalls_Get c s, builderCalls_Delete c s⟩⟩

/-- Witness of C2 at the addresses 203.0.113.5 and 2001:db8::1. -/
theorem C2_segment_verbatim_witness :
    needsEscape "203.0.113.5" = false ∧ needsEscape "2001:db8::1" = false ∧
    builderCalls (FloatingIPsServiceOp.Get okEnv "203.0.113.5").2
        = [(MethodGet, floatingBasePath ++ "/" ++ pathEscape "203.0.113.5", Body.nil)] ∧
    builderCalls (FloatingIPsServiceOp.Delete okEnv "2001:db8::1").2
        = [(MethodDelete, floatingBasePath ++ "/" ++ pathEscape "2001:db8::1", Body.nil)] :=
  ⟨by decide, by decide, (C2_segment_verbatim okEnv "203.0.113.5" (by decide)).1,
    (C2_segment_verbatim okEnv "2001:db8::1" (by decide)).2.1⟩

/-- Counterexample to C2 as stated: for `ip = "a/b c"` the URL path encoding of
the segment is `a%2Fb%20c`, and the path `Get` and `Delete` build contains
`a/b c`, with the slash and the space not escaped. -/
theorem C2_counterexample :
    pathEscape "a/b c" = "a%2Fb%20c" ∧
    builderCalls (FloatingIPsServiceOp.Get okEnv "a/b c").2
        = [("GET", "v2/floating_ips/a/b c", Body.nil)] ∧
    builderCalls (FloatingIPsServiceOp.Delete okEnv "a/b c").2
        = [("DELETE", "v2/floating_ips/a/b c", Body.nil)] ∧
    builderCalls (FloatingIPsServiceOp.Get okEnv "a/b c").2
        ≠ [(MethodGet, floatingBasePath ++ "/" ++ pathEscape "a/b c", Body.nil)] ∧
    builderCalls (FloatingIPsServiceOp.Delete okEnv "a/b c").2
        ≠ [(MethodDelete, floatingBasePath ++ "/" ++ pathEscape "a/b c", Body.nil)] := by
  refine ⟨by decide, by decide, by decide, by decide, by decide⟩

/-! ## Body of `Create` -/

theorem builderCalls_Create (c : Env G) (p : Option FloatingIPCreateRequest) :
    builderCalls (FloatingIPsServiceOp.Create c p).2 =
      [(MethodPost, floatingBasePath, Body.createRequest p)] := by
  unfold FloatingIPsServiceOp.Create
  dsimp only
  split
  · simp [builderCalls]
  · split
    · simp [builderCalls]
    · split <;> simp [builderCalls]

theorem isEmptyValue_string (s : String) : isEmptyValue (.string s) = decide (s = "") := by
  unfold isEmptyValue
  by_cases h : s = ""
  · subst h; rfl
  · have : s.length ≠ 0 := by
      intro h0
      apply h
      apply String.ext
      exact List.length_eq_zero.mp h0
    simp [h, this]

theorem isEmptyValue_int (n : Int) : isEmptyValue (.int n) = decide (n = 0) := by
  unfold isEmptyValue
  by_cases h : n = 0 <;> simp [h]

/-- C4: for every create request `r`, `Create` hands the request builder the
method POST, the collection path and `r` as the body; the JSON object of `r`
has the key `region` iff `r.Region` is not empty, `droplet_id` iff
`r.DropletID` is not zero, `project_id` iff `r.ProjectID` is not empty, each
key that is present carries the value of its field, and no member is an empty
string or a zero.  The request `{DropletID: 123}` is written
`{"droplet_id":123}`. -/
theorem C4_create_body (c : Env G) (r : FloatingIPCreateRequest) :
    builderCalls (FloatingIPsServiceOp.Create c (some r)).2
        = [("POST", "v2/floating_ips", Body.createRequest (some r))] ∧
    ("region" ∈ r.members.map Prod.fst ↔ r.Region ≠ "") ∧
    ("droplet_id" ∈ r.members.map Prod.fst ↔ r.DropletID ≠ 0) ∧
    ("project_id" ∈ r.members.map Prod.fst ↔ r.ProjectID ≠ "") ∧
    (∀ k v, (k, v) ∈ r.members →
      (k = "region" ∧ v = .string r.Region) ∨ (k = "droplet_id" ∧ v = .int r.DropletID) ∨
      (k = "project_id" ∧ v = .string r.ProjectID)) ∧
    (∀ k v, (k, v) ∈ r.members → v ≠ .string "" ∧ v ≠ .int 0) ∧
    FloatingIPCreateRequest.Marshal ⟨"", 123, ""⟩ = "\x7b\"droplet_id\":123\x7d" := by
  have hmem : ∀ k v, (k, v) ∈ r.members →
      ((k = "region" ∧ v = .string r.Region) ∨ (k = "droplet_id" ∧ v = .int r.DropletID) ∨
        (k = "project_id" ∧ v = .string r.ProjectID)) ∧ isEmptyValue v = false := by
    intro k v hkv
    simp only [FloatingIPCreateRequest.members, marshalFields, List.mem_map, List.mem_filter,
      FloatingIPCreateRequest.fields, List.mem_cons, List.mem_singleton, List.not_mem_nil,
      or_false] at hkv
    obtain ⟨f, ⟨hf, hne⟩, heq⟩ := hkv
    rcases hf with rfl | rfl | rfl <;>
      simp only [Prod.mk.injEq, Bool.true_and, Bool.not_eq_eq_eq_not, Bool.not_true] at heq hne <;>
      obtain ⟨rfl, rfl⟩ := heq <;> simp [hne]
  refine ⟨builderCalls_Create c (some r), ?_, ?_, ?_, fun k v h => (hmem k v h).1, ?_,
    by decide⟩
  · by_cases h1 : r.Region = "" <;> by_cases h2 : r.DropletID = 0 <;>
    by_cases h3 : r.ProjectID = "" <;>
    simp [FloatingIPCreateRequest.members, marshalFields, FloatingIPCreateRequest.fields,
      List.filter, isEmptyValue_string, isEmptyValue_int, h1, h2, h3]
  · by_cases h1 : r.Region = "" <;> by_cases h2 : r.DropletID = 0 <;>
    by_cases h3 : r.ProjectID = "" <;>
    simp [FloatingIPCreateRequest.members, marshalFields, FloatingIPCreateRequest.fields,
      List.filter, isEmptyValue_string, isEmptyValue_int, h1, h2, h3]
  · by_cases h1 : r.Region = "" <;> by_cases h2 : r.DropletID = 0 <;>
    by_cases h3 : r.ProjectID = "" <;>
    simp [FloatingIPCreateRequest.members, marshalFields, FloatingIPCreateRequest.fields,
      List.filter, isEmptyValue_string, isEmptyValue_int, h1, h2, h3]
  · intro k v h
    have he := (hmem k v h).2
    constructor
    · rintro rfl
      simp [isEmptyValue] at he
    · rintro rfl
      simp [isEmptyValue] at he

/-! ## Results of `List` -/

/-- C5: when the option encoder and the request builder succeed and the
transport call of `List` returns a response `resp` with a nil error, `List`
returns a nil error, the `floating_ips` of the decoded envelope as data, and
`resp` in which `Links` is the envelope's links when the envelope has links and
`Meta` is the envelope's meta when it has meta; a field whose envelope
counterpart is absent keeps the value the transport gave it. -/
theorem C5_list_success (c : Env G) (opt : Option ListOptions) (path : String)
    (req : Option G.Request) (resp : Response G) (root : floatingIPsRoot G)
    (hopt : c.addOptions floatingBasePath opt = (path, none))
    (hreq : c.NewRequest MethodGet path Body.nil = (req, none))
    (hdo : c.Do .floatingIPsRoot req floatingIPsRoot.new = (some resp, none, root)) :
    (FloatingIPsServiceOp.List c opt).1 = .returned (root.FloatingIPs,
      some ⟨resp.StatusCode,
        match root.Links with
        | some l => some l
        | none => resp.Links,
        match root.Meta with
        | some m => some m
        | none => resp.Meta⟩,
      none) := by
  unfold FloatingIPsServiceOp.List
  simp only [hopt, hreq, hdo]
  cases hl : root.Links <;> cases hm : root.Meta <;> simp [setLinks, setMeta]

/-- Witness of C5: the transport answers 200 with stale links and a meta, the
envelope has links and no meta; `List` returns the envelope's links and keeps
the transport's meta. -/
theorem C5_list_success_witness :
    (FloatingIPsServiceOp.List okEnv (some ⟨2, 50⟩)).1
      = .returned (some [exampleIP], some ⟨200, some "next", some 3⟩, none) :=
  C5_list_success okEnv (some ⟨2, 50⟩) "v2/floating_ips?page=2&per_page=50"
    (some "GET v2/floating_ips?page=2&per_page=50") ⟨200, some "stale", some 3⟩
    ⟨some [exampleIP], some "next", none⟩ (by decide) (by decide) rfl

/-! ## Errors -/

/-- C6: for each of `List`, `Get` and `Create` and whatever the option
encoder, the request builder and the transport do: when the operation returns
a non-nil error, the data it returns is the zero value, the nil slice for
`List`, the nil pointer for `Get` and `Create`. -/
theorem C6_error_zero_data (c : Env G) :
    (∀ opt data resp e,
      (FloatingIPsServiceOp.List c opt).1 = .returned (data, resp, some e) → data = none) ∧
    (∀ ip data resp e,
      (FloatingIPsServiceOp.Get c ip).1 = .returned (data, resp, some e) → data = none) ∧
    (∀ p data resp e,
      (FloatingIPsServiceOp.Create c p).1 = .returned (data, resp, some e) → data = none) := by
  refine ⟨?_, ?_, ?_⟩
  · intro opt data resp e h
    unfold FloatingIPsServiceOp.List at h
    dsimp only at h
    split at h
    · simp only [Exec.returned.injEq, Prod.mk.injEq] at h
      exact h.1.symm
    · split at h
      · simp only [Exec.returned.injEq, Prod.mk.injEq] at h
        exact h.1.symm
      · split at h
        · simp only [Exec.returned.injEq, Prod.mk.injEq] at h
          exact h.1.symm
        · split at h
          · exact absurd h (by simp)
          · split at h
            · exact absurd h (by simp)
            · simp at h
  · intro ip data resp e h
    unfold FloatingIPsServiceOp.Get at h
    dsimp only at h
    split at h
    · simp only [Exec.returned.injEq, Prod.mk.injEq] at h
      exact h.1.symm
    · split at h
      · simp only [Exec.returned.injEq, Prod.mk.injEq] at h
        exact h.1.symm
      · simp at h
  · intro p data resp e h
    unfold FloatingIPsServiceOp.Create at h
    dsimp only at h
    split at h
    · simp only [Exec.returned.injEq, Prod.mk.injEq] at h
      exact h.1.symm
    · split at h
      · simp only [Exec.returned.injEq, Prod.mk.injEq] at h
        exact h.1.symm
      · split at h
        · exact absurd h (by simp)
        · simp at h

/-- Witness of C6: the transport decodes a floating IP into the envelope and
then fails; `Get`, `Create` and `List` return the error and no data. -/
theorem C6_error_zero_data_witness :
    (notFoundEnv.Do .floatingIPRoot (some "GET v2/floating_ips/203.0.113.5")
      floatingIPRoot.new).2.2.FloatingIP = some exampleIP ∧
    (FloatingIPsServiceOp.Get notFoundEnv "203.0.113.5").1
      = .returned (none, some ⟨404, none, none⟩, some "404 not found") ∧
    (none : Option (FloatingIP exampleDecls)) = none ∧
    (none : Slice (FloatingIP exampleDecls)) = none ∧
    (none : Option (FloatingIP exampleDecls)) = none :=
  ⟨rfl, rfl,
    (C6_error_zero_data notFoundEnv).2.1 "203.0.113.5" none (some ⟨404, none, none⟩)
      "404 not found" rfl,
    (C6_error_zero_data notFoundEnv).1 none none (some ⟨404, none, none⟩) "404 not found" rfl,
    (C6_error_zero_data notFoundEnv).2.2 (some ⟨"nyc3", 0, ""⟩) none (some ⟨404, none, none⟩)
      "404 not found" rfl⟩

/-- C7: for each of `List`, `Get`, `Create` and `Delete`: when the transport
call returns a response `resp` together with a non-nil error `err`, the
operation returns exactly `err` and exactly `resp`, its status, `Links` and
`Meta` as the transport set them. -/
theorem C7_transport_error (c : Env G) (req : Option G.Request) (resp : Option (Response G))
    (err : G.Error) :
    (∀ opt path root,
      c.addOptions floatingBasePath opt = (path, none) →
      c.NewRequest MethodGet path Body.nil = (req, none) →
      c.Do .floatingIPsRoot req floatingIPsRoot.new = (resp, some err, root) →
      (FloatingIPsServiceOp.List c opt).1 = .returned (none, resp, some err)) ∧
    (∀ ip root,
      c.NewRequest MethodGet (floatingBasePath ++ "/" ++ ip) Body.nil = (req, none) →
      c.Do .floatingIPRoot req floatingIPRoot.new = (resp, some err, root) →
      (FloatingIPsServiceOp.Get c ip).1 = .returned (none, resp, some err)) ∧
    (∀ p root,
      c.NewRequest MethodPost floatingBasePath (Body.createRequest p) = (req, none) →
      c.Do .floatingIPRoot req floatingIPRoot.new = (resp, some err, root) →
      (FloatingIPsServiceOp.Create c p).1 = .returned (none, resp, some err)) ∧
    (∀ ip,
      c.NewRequest MethodDelete (floatingBasePath ++ "/" ++ ip) Body.nil = (req, none) →
      c.Do .nil req () = (resp, some err, ()) →
      (FloatingIPsServiceOp.Delete c ip).1 = .returned (resp, some err)) := by
  refine ⟨?_, ?_, ?_, ?_⟩
  · intro opt path root hopt hreq hdo
    unfold FloatingIPsServiceOp.List
    simp only [hopt, hreq, hdo]
  · intro ip root hreq hdo
    unfold FloatingIPsServiceOp.Get
    simp only [Sprintf_s_slash_s, hreq, hdo]
  · intro p root hreq hdo
    unfold FloatingIPsServiceOp.Create
    simp only [hreq, hdo]
  · intro ip hreq hdo
    unfold FloatingIPsServiceOp.Delete
    simp only [Sprintf_s_slash_s, hreq, hdo]

/-- Witness of C7: `Delete("203.0.113.5")` when the transport reports status
404 with an error returns that error and the response with status 404. -/
theorem C7_transport_error_witness :
    notFoundEnv.Do .nil (some "DELETE v2/floating_ips/203.0.113.5") ()
      = (some ⟨404, none, none⟩, some "404 not found", ()) ∧
    (FloatingIPsServiceOp.Delete notFoundEnv "203.0.113.5").1
      = .returned (some ⟨404, none, none⟩, some "404 not found") :=
  ⟨rfl, (C7_transport_error notFoundEnv (some "DELETE v2/floating_ips/203.0.113.5")
    (some ⟨404, none, none⟩) "404 not found").2.2.2 "203.0.113.5" (by decide) rfl⟩

/-- C8: when request construction fails (the option encoder in `List`, the
request builder in `List`, `Get`, `Create` or `Delete`), the operation returns
that error with a nil response and nil data, and makes no transport call; when
request construction succeeds, it makes exactly one transport call. -/
theorem C8_construction (c : Env G) :
    (∀ opt path e, c.addOptions floatingBasePath opt = (path, some e) →
      (FloatingIPsServiceOp.List c opt).1 = .returned (none, none, some e) ∧
      doCalls (FloatingIPsServiceOp.List c opt).2 = 0 ∧
      builderCalls (FloatingIPsServiceOp.List c opt).2 = []) ∧
    (∀ opt path req e, c.addOptions floatingBasePath opt = (path, none) →
      c.NewRequest MethodGet path Body.nil = (req, some e) →
      (FloatingIPsServiceOp.List c opt).1 = .returned (none, none, some e) ∧
      doCalls (FloatingIPsServiceOp.List c opt).2 = 0) ∧
    (∀ ip req e, c.NewRequest MethodGet (floatingBasePath ++ "/" ++ ip) Body.nil = (req, some e) →
      (FloatingIPsServiceOp.Get c ip).1 = .returned (none, none, some e) ∧
      doCalls (FloatingIPsServiceOp.Get c ip).2 = 0) ∧
    (∀ p req e, c.NewRequest MethodPost floatingBasePath (Body.createRequest p) = (req, some e) →
      (FloatingIPsServiceOp.Create c p).1 = .returned (none, none, some e) ∧
      doCalls (FloatingIPsServiceOp.Create c p).2 = 0) ∧
    (∀ ip req e,
      c.NewRequest MethodDelete (floatingBasePath ++ "/" ++ ip) Body.nil = (req, some e) →
      (FloatingIPsServiceOp.Delete c ip).1 = .returned (none, some e) ∧
      doCalls (FloatingIPsServiceOp.Delete c ip).2 = 0) ∧
    (∀ opt path req, c.addOptions floatingBasePath opt = (path, none) →
      c.NewRequest MethodGet path Body.nil = (req, none) →
      doCalls (FloatingIPsServiceOp.List c opt).2 = 1) ∧
    (∀ ip req, c.NewRequest MethodGet (floatingBasePath ++ "/" ++ ip) Body.nil = (req, none) →
      doCalls (FloatingIPsServiceOp.Get c ip).2 = 1) ∧
    (∀ p req, c.NewRequest MethodPost floatingBasePath (Body.createRequest p) = (req, none) →
      doCalls (FloatingIPsServiceOp.Create c p).2 = 1) ∧
    (∀ ip req, c.NewRequest MethodDelete (floatingBasePath ++ "/" ++ ip) Body.nil = (req, none) →
      doCalls (FloatingIPsServiceOp.Delete c ip).2 = 1) := by
  refine ⟨?_, ?_, ?_, ?_, ?_, ?_, ?_, ?_, ?_⟩
  · intro opt path e hopt
    unfold FloatingIPsServiceOp.List
    simp [hopt, doCalls, Event.isDo, builderCalls]
  · intro opt path req e hopt hreq
    unfold FloatingIPsServiceOp.List
    simp [hopt, hreq, doCalls, Event.isDo]
  · intro ip req e hreq
    unfold FloatingIPsServiceOp.Get
    simp [Sprintf_s_slash_s, hreq, doCalls, Event.isDo]
  · intro p req e hreq
    unfold FloatingIPsServiceOp.Create
    simp [hreq, doCalls, Event.isDo]
  · intro ip req e hreq
    unfold FloatingIPsServiceOp.Delete
    simp [Sprintf_s_slash_s, hreq, doCalls, Event.isDo]
  · intro opt path req hopt hreq
    unfold FloatingIPsServiceOp.List
    simp only [hopt, hreq]
    split
    · simp [doCalls, Event.isDo]
    · split
      · simp [doCalls, Event.isDo]
      · split <;> simp [doCalls, Event.isDo]
  · intro ip req hreq
    unfold FloatingIPsServiceOp.Get
    simp only [Sprintf_s_slash_s, hreq]
    split <;> simp [doCalls, Event.isDo]
  · intro p req hreq
    unfold FloatingIPsServiceOp.Create
    simp only [hreq]
    split
    · simp [doCalls, Event.isDo]
    · split <;> simp [doCalls, Event.isDo]
  · intro ip req hreq
    unfold FloatingIPsServiceOp.Delete
    simp [Sprintf_s_slash_s, hreq, doCalls, Event.isDo]

/-- Witness of C8: an option encoder that fails, a request builder that fails,
and a request builder that succeeds. -/
theorem C8_construction_witness :
    ((FloatingIPsServiceOp.List badOptionsEnv (some ⟨2, 50⟩)).1
        = .returned (none, none, some "bad options") ∧
      doCalls (FloatingIPsServiceOp.List badOptionsEnv (some ⟨2, 50⟩)).2 = 0 ∧
      builderCalls (FloatingIPsServiceOp.List badOptionsEnv (some ⟨2, 50⟩)).2 = []) ∧
    ((FloatingIPsServiceOp.Delete rejectEnv "203.0.113.5").1
        = .returned (none, some "bad request") ∧
      doCalls (FloatingIPsServiceOp.Delete rejectEnv "203.0.113.5").2 = 0) ∧
    doCalls (FloatingIPsServiceOp.Get okEnv "203.0.113.5").2 = 1 :=
  ⟨(C8_construction badOptionsEnv).1 (some ⟨2, 50⟩) "v2/floating_ips" "bad options" rfl,
    (C8_construction rejectEnv).2.2.2.2.1 "203.0.113.5" none "bad request" rfl,
    (C8_construction okEnv).2.2.2.2.2.2.1 "203.0.113.5"
      (some "GET v2/floating_ips/203.0.113.5") (by decide)⟩

/-! ## Request of `List` -/

/-- C9: with the option encoder of the spec, for all pagination options
`opt`, the valid ones among them, `List` issues a GET with a nil body whose
path is the collection path followed by `?` and the query string of exactly
the options given, no other parameter; with no options, or none given, the
path is the bare collection path.  The string `List` hands the request builder
is that path relative to the base URL, `v2/floating_ips...`.  The options
`{page: 2, per_page: 50}` give `/v2/floating_ips?page=2&per_page=50`. -/
theorem C9_list_request (c : Env G) (h : c.addOptions = addOptions) :
    issuedRequests (FloatingIPsServiceOp.List c none).2
      = [("GET", "/v2/floating_ips", Body.nil)] ∧
    (∀ o : ListOptions, o.params = [] →
      issuedRequests (FloatingIPsServiceOp.List c (some o)).2
        = [("GET", "/v2/floating_ips", Body.nil)]) ∧
    (∀ o : ListOptions, o.params ≠ [] →
      issuedRequests (FloatingIPsServiceOp.List c (some o)).2
        = [("GET", "/v2/floating_ips" ++ "?" ++ queryString o.params, Body.nil)]) ∧
    (∀ o : ListOptions, ∀ k v, (k, v) ∈ o.params ↔
      (k = "page" ∧ o.Page ≠ 0 ∧ v = toString o.Page) ∨
      (k = "per_page" ∧ o.PerPage ≠ 0 ∧ v = toString o.PerPage)) ∧
    issuedRequests (FloatingIPsServiceOp.List c (some ⟨2, 50⟩)).2
      = [("GET", "/v2/floating_ips?page=2&per_page=50", Body.nil)] ∧
    builderCalls (FloatingIPsServiceOp.List c none).2 = [("GET", "v2/floating_ips", Body.nil)] ∧
    (∀ o : ListOptions, o.params = [] →
      builderCalls (FloatingIPsServiceOp.List c (some o)).2
        = [("GET", "v2/floating_ips", Body.nil)]) ∧
    (∀ o : ListOptions, o.params ≠ [] →
      builderCalls (FloatingIPsServiceOp.List c (some o)).2
        = [("GET", "v2/floating_ips" ++ "?" ++ queryString o.params, Body.nil)]) := by
  have key : ∀ opt, builderCalls (FloatingIPsServiceOp.List c opt).2
      = [(MethodGet, (addOptions floatingBasePath opt : String × Option G.Error).1, Body.nil)] := by
    intro opt
    have hnone : (addOptions floatingBasePath opt : String × Option G.Error).2 = none := by
      unfold addOptions
      cases opt with
      | none => rfl
      | some o => dsimp only; split <;> rfl
    unfold FloatingIPsServiceOp.List
    rw [h]
    dsimp only
    generalize (addOptions floatingBasePath opt : String × Option G.Error) = r at hnone ⊢
    obtain ⟨path, e⟩ := r
    simp only at hnone
    subst hnone
    dsimp only
    split
    · simp [builderCalls]
    · split
      · simp [builderCalls]
      · split
        · simp [builderCalls]
        · split <;> simp [builderCalls]
  have hq : ∀ q : String,
      requestPath ("v2/floating_ips" ++ "?" ++ q) = "/v2/floating_ips" ++ "?" ++ q := by
    intro q
    apply String.ext
    simp [requestPath, String.data_append]
  have hbare : builderCalls (FloatingIPsServiceOp.List c none).2
      = [("GET", "v2/floating_ips", Body.nil)] := by
    rw [key]; rfl
  have hempty : ∀ o : ListOptions, o.params = [] →
      builderCalls (FloatingIPsServiceOp.List c (some o)).2
        = [("GET", "v2/floating_ips", Body.nil)] := by
    intro o ho
    rw [key]
    simp [addOptions, ho, MethodGet, floatingBasePath]
  have hquery : ∀ o : ListOptions, o.params ≠ [] →
      builderCalls (FloatingIPsServiceOp.List c (some o)).2
        = [("GET", "v2/floating_ips" ++ "?" ++ queryString o.params, Body.nil)] := by
    intro o ho
    rw [key]
    simp [addOptions, ho, MethodGet, floatingBasePath]
  refine ⟨?_, ?_, ?_, ?_, ?_, hbare, hempty, hquery⟩
  · unfold issuedRequests
    rw [hbare]
    decide
  · intro o ho
    unfold issuedRequests
    rw [hempty o ho]
    decide
  · intro o ho
    unfold issuedRequests
    rw [hquery o ho]
    simp only [List.map_cons, List.map_nil, hq]
  · intro o k v
    unfold ListOptions.params
    by_cases h1 : o.Page = 0 <;> by_cases h2 : o.PerPage = 0 <;> simp [h1, h2]
  · unfold issuedRequests
    rw [hquery ⟨2, 50⟩ (by decide)]
    decide

/-- Witness of C9 with the options `{page: 2, per_page: 50}`: the request
issued and the string handed to the request builder. -/
theorem C9_list_request_witness :
    okEnv.addOptions = addOptions ∧
    issuedRequests (FloatingIPsServiceOp.List okEnv (some ⟨2, 50⟩)).2
      = [("GET", "/v2/floating_ips?page=2&per_page=50", Body.nil)] ∧
    builderCalls (FloatingIPsServiceOp.List okEnv (some ⟨2, 50⟩)).2
      = [("GET", "v2/floating_ips" ++ "?" ++ queryString [("page", "2"), ("per_page", "50")],
          Body.nil)] :=
  ⟨rfl, (C9_list_request okEnv rfl).2.2.2.2.1,
    (C9_list_request okEnv rfl).2.2.2.2.2.2.2 ⟨2, 50⟩ (by decide)⟩

/-! ## Merging of the pagination links -/

/-- C10: on success `Create` replaces the `Links` of the response with the
links of the envelope when the envelope has links, and leaves every other
field of the response, `Meta` included, as the transport returned it; `Get`
and `Delete` return the response of the transport with no field changed,
whatever the transport decoded. -/
theorem C10_merge_asymmetry (c : Env G) (req : Option G.Request) :
    (∀ p resp root,
      c.NewRequest MethodPost floatingBasePath (Body.createRequest p) = (req, none) →
      c.Do .floatingIPRoot req floatingIPRoot.new = (some resp, none, root) →
      (FloatingIPsServiceOp.Create c p).1 = .returned (root.FloatingIP,
        some ⟨resp.StatusCode,
          match root.Links with
          | some l => some l
          | none => resp.Links,
          resp.Meta⟩,
        none)) ∧
    (∀ ip resp err root,
      c.NewRequest MethodGet (floatingBasePath ++ "/" ++ ip) Body.nil = (req, none) →
      c.Do .floatingIPRoot req floatingIPRoot.new = (resp, err, root) →
      ∃ data, (FloatingIPsServiceOp.Get c ip).1 = .returned (data, resp, err)) ∧
    (∀ ip resp err,
      c.NewRequest MethodDelete (floatingBasePath ++ "/" ++ ip) Body.nil = (req, none) →
      c.Do .nil req () = (resp, err, ()) →
      (FloatingIPsServiceOp.Delete c ip).1 = .returned (resp, err)) := by
  refine ⟨?_, ?_, ?_⟩
  · intro p resp root hreq hdo
    unfold FloatingIPsServiceOp.Create
    simp only [hreq, hdo]
    cases hl : root.Links <;> simp [setLinks]
  · intro ip resp err root hreq hdo
    unfold FloatingIPsServiceOp.Get
    simp only [Sprintf_s_slash_s, hreq, hdo]
    cases err with
    | none => exact ⟨_, rfl⟩
    | some e => exact ⟨_, rfl⟩
  · intro ip resp err hreq hdo
    unfold FloatingIPsServiceOp.Delete
    simp only [Sprintf_s_slash_s, hreq, hdo]

/-- Witness of C10: the transport answers 200 with no links and a meta, and
decodes an envelope with links; `Create` returns the links of the envelope and
the meta of the transport, `Get` returns the response without links. -/
theorem C10_merge_asymmetry_witness :
    (okEnv.Do .floatingIPRoot (some "POST v2/floating_ips") floatingIPRoot.new
      = (some ⟨200, none, some 3⟩, none, ⟨some exampleIP, some "actions"⟩)) ∧
    (FloatingIPsServiceOp.Create okEnv (some ⟨"nyc3", 0, ""⟩)).1
      = .returned (some exampleIP, some ⟨200, some "actions", some 3⟩, none) ∧
    (∃ data, (FloatingIPsServiceOp.Get okEnv "203.0.113.5").1
      = .returned (data, some ⟨200, none, some 3⟩, none)) ∧
    (FloatingIPsServiceOp.Delete okEnv "203.0.113.5").1
      = .returned (some ⟨204, none, none⟩, none) :=
  ⟨rfl,
    (C10_merge_asymmetry okEnv (some "POST v2/floating_ips")).1 (some ⟨"nyc3", 0, ""⟩)
      ⟨200, none, some 3⟩ ⟨some exampleIP, some "actions"⟩ (by decide) rfl,
    (C10_merge_asymmetry okEnv (some "GET v2/floating_ips/203.0.113.5")).2.1 "203.0.113.5"
      (some ⟨200, none, some 3⟩) none ⟨some exampleIP, some "actions"⟩ (by decide) rfl,
    (C10_merge_asymmetry okEnv (some "DELETE v2/floating_ips/203.0.113.5")).2.2 "203.0.113.5"
      (some ⟨204, none, none⟩) none (by decide) rfl⟩

end Godo
